import Mathlib

/-! Shallow embedding of the sandbox-creation core of cri-containerd:
`RunPodSandbox` and `generateSandboxContainerSpec` from
src/pkg/server/sandbox_run.go, together with models of the collaborators
they use (name registrar, truncated-id index, OS operations, execution
service client, metadata store).  External effects are driven by an
explicit environment of injected outcomes, and the Go defer-based
compensation blocks guarded on `retErr != nil` are written out at each
error return in reverse registration order, exactly as defer runs them. -/

namespace CriContainerd

/-- Linux namespace kinds relevant to the generated OCI spec
(runtime-spec NetworkNamespace, PIDNamespace, IPCNamespace, UTSNamespace,
MountNamespace). -/
inductive LinuxNamespaceType where
  | network
  | pid
  | ipc
  | uts
  | mnt
deriving DecidableEq, Repr

/-- CRI NamespaceOption: the three host-sharing flags read by
generateSandboxContainerSpec. -/
structure NamespaceOption where
  hostNetwork : Bool
  hostPid : Bool
  hostIpc : Bool
deriving DecidableEq, Repr

/-- CRI LinuxSandboxSecurityContext, restricted to the field the generator
reads.  Optional sub-message, as in the protobuf type. -/
structure LinuxSandboxSecurityContext where
  namespaceOptions : Option NamespaceOption
deriving DecidableEq, Repr

/-- CRI LinuxPodSandboxConfig: cgroup parent and security context. -/
structure LinuxPodSandboxConfig where
  cgroupParent : String
  securityContext : Option LinuxSandboxSecurityContext
deriving DecidableEq, Repr

/-- CRI PodSandboxMetadata.  The Go field Namespace is called nsName here
because namespace is a Lean keyword. -/
structure PodSandboxMetadata where
  name : String
  uid : String
  nsName : String
  attempt : Nat
deriving DecidableEq, Repr

/-- CRI PodSandboxConfig, restricted to the fields the core reads or
stores.  The Go field Annotations is called annots here. -/
structure PodSandboxConfig where
  metadata : Option PodSandboxMetadata
  hostname : String
  logDirectory : String
  labels : List (String × String)
  annots : List (String × String)
  linux : Option LinuxPodSandboxConfig
deriving DecidableEq, Repr

/-- Go protobuf getter config.GetMetadata (nil-safe). -/
def getMetadata (c : PodSandboxConfig) : Option PodSandboxMetadata := c.metadata

/-- Go protobuf getter config.GetLinux (nil-safe). -/
def getLinux (c : PodSandboxConfig) : Option LinuxPodSandboxConfig := c.linux

/-- Go protobuf getter config.GetHostname. -/
def getHostname (c : PodSandboxConfig) : String := c.hostname

/-- Go protobuf getter GetCgroupParent on a possibly-nil Linux block:
returns the empty string when the block is absent. -/
def getCgroupParent (l : Option LinuxPodSandboxConfig) : String :=
  (l.map (fun x => x.cgroupParent)).getD ""

/-- Go protobuf getter GetSecurityContext on a possibly-nil Linux block. -/
def getSecurityContext (l : Option LinuxPodSandboxConfig) :
    Option LinuxSandboxSecurityContext :=
  l.bind (fun x => x.securityContext)

/-- Go protobuf getter GetNamespaceOptions on a possibly-nil security
context. -/
def getNamespaceOptions (s : Option LinuxSandboxSecurityContext) :
    Option NamespaceOption :=
  s.bind (fun x => x.namespaceOptions)

/-- Go protobuf getter GetHostNetwork on a possibly-nil NamespaceOption:
false when absent. -/
def getHostNetwork (n : Option NamespaceOption) : Bool :=
  (n.map (fun x => x.hostNetwork)).getD false

/-- Go protobuf getter GetHostPid on a possibly-nil NamespaceOption. -/
def getHostPid (n : Option NamespaceOption) : Bool :=
  (n.map (fun x => x.hostPid)).getD false

/-- Go protobuf getter GetHostIpc on a possibly-nil NamespaceOption. -/
def getHostIpc (n : Option NamespaceOption) : Bool :=
  (n.map (fun x => x.hostIpc)).getD false

/-- The OCI runtime spec fields that generateSandboxContainerSpec sets:
root path and read-only flag, process argument vector, hostname, the set
of enabled Linux namespaces, and the optional cgroups path. -/
structure Spec where
  rootPath : String
  rootReadonly : Bool
  processArgs : List String
  hostname : String
  namespaces : List LinuxNamespaceType
  cgroupsPath : Option String
deriving DecidableEq, Repr

/-- Modelled from the spec: the baseline produced by generate.New() of the
runtime-tools library (not part of this repository).  Per the spec, by
default the generated spec enables isolated network, PID and IPC
namespaces, and the namespace set ranges over network, PID, IPC, UTS and
mount. -/
def generateNew : Spec :=
  { rootPath := "rootfs"
    rootReadonly := false
    processArgs := []
    hostname := ""
    namespaces := [.mnt, .network, .uts, .pid, .ipc]
    cgroupsPath := none }

/-- generate.Generator.RemoveLinuxNamespace: drops every namespace of the
given type from the spec's namespace set. -/
def removeLinuxNamespace (t : LinuxNamespaceType) (g : Spec) : Spec :=
  { g with namespaces := g.namespaces.filter (fun x => x ≠ t) }

/-- generate.Generator.SetLinuxCgroupsPath. -/
def setLinuxCgroupsPath (p : String) (g : Spec) : Spec :=
  { g with cgroupsPath := some p }

/-- Modelled from the spec: the fixed relative rootfs path constant
(relativeRootfsPath, declared in a repository file not under src/). -/
def relativeRootfsPath : String := "rootfs"

/-- Modelled from the spec: the fixed default runtime name constant
(defaultRuntime, declared in a repository file not under src/). -/
def defaultRuntime : String := "linux"

/-- The fixed placeholder sandbox-holding command from
generateSandboxContainerSpec (pauseCommand in the source). -/
def pauseCommand : List String :=
  ["sh", "-c", "while true; do sleep 1000000000; done"]

/-- Modelled from the spec: getCgroupsPath (declared in a repository file
not under src/) deterministically joins the cgroup parent path with the
sandbox identity. -/
def getCgroupsPath (cgroupsParent id : String) : String :=
  cgroupsParent ++ "/" ++ id

/-- Embedding of generateSandboxContainerSpec from
src/pkg/server/sandbox_run.go: baseline spec, then relative root path,
pause command, read-only root, hostname from config, optional cgroups
path, and removal of the network/PID/IPC namespaces for host-sharing
flags. -/
def generateSandboxContainerSpec (id : String) (config : PodSandboxConfig) : Spec :=
  let g0 := generateNew
  let g1 := { g0 with rootPath := relativeRootfsPath }
  let g2 := { g1 with processArgs := pauseCommand }
  let g3 := { g2 with rootReadonly := true }
  let g4 := { g3 with hostname := getHostname config }
  let g5 :=
    if getCgroupParent (getLinux config) ≠ "" then
      setLinuxCgroupsPath (getCgroupsPath (getCgroupParent (getLinux config)) id) g4
    else g4
  let nsOptions := getNamespaceOptions (getSecurityContext (getLinux config))
  let g6 := if getHostNetwork nsOptions then removeLinuxNamespace .network g5 else g5
  let g7 := if getHostPid nsOptions then removeLinuxNamespace .pid g6 else g6
  let g8 := if getHostIpc nsOptions then removeLinuxNamespace .ipc g7 else g7
  g8

/-- Modelled from the spec: makeSandboxName (declared in a repository file
not under src/) derives the sandbox name deterministically from the
metadata block, joining name, namespace, UID and attempt.  Absent metadata
yields the protobuf zero values. -/
def makeSandboxName (m : Option PodSandboxMetadata) : String :=
  (m.map (fun x => x.name)).getD "" ++ "_" ++
  (m.map (fun x => x.nsName)).getD "" ++ "_" ++
  (m.map (fun x => x.uid)).getD "" ++ "_" ++
  toString ((m.map (fun x => x.attempt)).getD 0)

/-- Modelled from the spec: getSandboxRootDir (declared in a repository
file not under src/) names one directory per sandbox identity under the
configured root directory. -/
def getSandboxRootDir (rootDir id : String) : String :=
  rootDir ++ "/sandboxes/" ++ id

/-- Modelled from the spec: getStreamingPipes (declared in a repository
file not under src/) returns the stdin, stdout and stderr named-pipe
paths inside a sandbox root directory; the orchestrator discards the
stdin component. -/
def getStreamingPipes (dir : String) : String × String × String :=
  (dir ++ "/stdin", dir ++ "/stdout", dir ++ "/stderr")

/-- Modelled from the spec: getNetworkNamespace (declared in a repository
file not under src/) derives the network-namespace handle from the
execution-service-reported process id. -/
def getNetworkNamespace (pid : Nat) : String :=
  "/proc/" ++ toString pid ++ "/ns/net"

/-- metadata.SandboxMetadata: the persisted sandbox record. -/
structure SandboxMetadata where
  ID : String
  Name : String
  Config : PodSandboxConfig
  CreatedAt : Nat
  NetNS : String
deriving DecidableEq, Repr

/-- Modelled from the spec: registrar.Registrar.Reserve (pkg/registrar is
not under src/) fails with AlreadyExists if the name is currently mapped
to any identity, otherwise atomically establishes the mapping. -/
def reserve (name id : String) (tbl : List (String × String)) :
    Except String (List (String × String)) :=
  if tbl.any (fun p => p.1 = name) then .error "name is reserved"
  else .ok ((name, id) :: tbl)

/-- Modelled from the spec: registrar.Registrar.ReleaseByName idempotently
removes the mapping if present; no error on absence. -/
def releaseByName (name : String) (tbl : List (String × String)) :
    List (String × String) :=
  tbl.filter (fun p => p.1 ≠ name)

/-- Modelled from the spec: truncindex.TruncIndex.Add (the docker
truncindex package is not under src/) fails if the identity is empty or
already present, otherwise inserts it. -/
def truncAdd (id : String) (idx : List String) : Except String (List String) :=
  if id = "" then .error "empty ID"
  else if idx.contains id then .error "id already exists"
  else .ok (id :: idx)

/-- Modelled from the spec: truncindex.TruncIndex.Delete removes the
identity if present and is a no-op otherwise. -/
def truncDelete (id : String) (idx : List String) : List String :=
  idx.filter (fun x => x ≠ id)

/-- Modelled from the spec: metadata.SandboxStore.Create fails if the
identity is already present, otherwise inserts the record. -/
def storeCreate (m : SandboxMetadata) (store : List SandboxMetadata) :
    Except String (List SandboxMetadata) :=
  if store.any (fun x => x.ID = m.ID) then .error "sandbox metadata already exists"
  else .ok (m :: store)

/-- Lifecycle status of a container inside the execution service. -/
inductive ContainerStatus where
  | created
  | started
deriving DecidableEq, Repr

/-- Observable state threaded through one RunPodSandbox call: the name
registrar table, the id index, the directories and named pipes managed
through the OS capability, the execution-service container table, call
logs for the create/start/delete and RemoveAll requests that were issued,
and the sandbox metadata store. -/
structure ServerState where
  nameIndex : List (String × String)
  idIndex : List String
  dirs : List String
  openPipes : List String
  closedPipes : List String
  containers : List (String × ContainerStatus)
  createCalls : List String
  startCalls : List String
  deleteCalls : List String
  removeAllCalls : List String
  sandboxStore : List SandboxMetadata
deriving DecidableEq, Repr

/-- The state with every component empty. -/
def emptyState : ServerState :=
  { nameIndex := [], idIndex := [], dirs := [], openPipes := [], closedPipes := []
    containers := [], createCalls := [], startCalls := [], deleteCalls := []
    removeAllCalls := [], sandboxStore := [] }

/-- Injected outcomes of the external, fallible operations one
RunPodSandbox call performs: none means the operation succeeds, some e
means it fails with error detail e.  pid is the process id reported by the
execution-service create call and now the creation timestamp. -/
structure Env where
  mkdirErr : Option String
  openStdoutErr : Option String
  openStderrErr : Option String
  marshalErr : Option String
  createErr : Option String
  startErr : Option String
  removeAllErr : Option String
  deleteErr : Option String
  pid : Nat
  now : Nat
deriving DecidableEq, Repr

/-- OS.MkdirAll: on success the directory exists afterwards. -/
def osMkdirAll (env : Env) (path : String) (st : ServerState) :
    Except String ServerState :=
  match env.mkdirErr with
  | some e => .error e
  | none => .ok { st with dirs := path :: st.dirs }

/-- OS.RemoveAll, used only as compensation: the call is always recorded;
on failure it is only logged and the directory remains. -/
def osRemoveAll (env : Env) (path : String) (st : ServerState) : ServerState :=
  let st1 := { st with removeAllCalls := path :: st.removeAllCalls }
  match env.removeAllErr with
  | some _ => st1
  | none => { st1 with dirs := st1.dirs.filter (fun d => d ≠ path) }

/-- OS.OpenFifo: on success the pipe is open afterwards. -/
def osOpenFifo (err : Option String) (path : String) (st : ServerState) :
    Except String ServerState :=
  match err with
  | some e => .error e
  | none => .ok { st with openPipes := path :: st.openPipes }

/-- io.Closer.Close on an opened pipe, used only as compensation; its
result is discarded by the source. -/
def closePipe (path : String) (st : ServerState) : ServerState :=
  { st with openPipes := st.openPipes.filter (fun p => p ≠ path)
            closedPipes := path :: st.closedPipes }

/-- Execution service Create: records the request, and on success adds the
container in created status and reports its process id. -/
def serviceCreate (env : Env) (id : String) (st : ServerState) :
    Except String Nat × ServerState :=
  let st1 := { st with createCalls := id :: st.createCalls }
  match env.createErr with
  | some e => (.error e, st1)
  | none => (.ok env.pid, { st1 with containers := (id, .created) :: st1.containers })

/-- Execution service Start: records the request, and on success marks the
container started. -/
def serviceStart (env : Env) (id : String) (st : ServerState) :
    Except String Unit × ServerState :=
  let st1 := { st with startCalls := id :: st.startCalls }
  match env.startErr with
  | some e => (.error e, st1)
  | none =>
    (.ok (), { st1 with containers :=
      st1.containers.map (fun p => if p.1 = id then (p.1, .started) else p) })

/-- Execution service Delete, used only as compensation: records the
request; on failure it is only logged and the container remains. -/
def serviceDelete (env : Env) (id : String) (st : ServerState) :
    Except String Unit × ServerState :=
  let st1 := { st with deleteCalls := id :: st.deleteCalls }
  match env.deleteErr with
  | some e => (.error e, st1)
  | none => (.ok (), { st1 with containers := st1.containers.filter (fun p => p.1 ≠ id) })

/-- Compensations registered by the time the id has been added to the id
index, in reverse registration order: delete the id, then release the
name. -/
def compIdName (name id : String) (st : ServerState) : ServerState :=
  let st1 := { st with idIndex := truncDelete id st.idIndex }
  { st1 with nameIndex := releaseByName name st1.nameIndex }

/-- Compensations once the sandbox root directory exists: remove it
(best-effort), then compIdName. -/
def compDir (env : Env) (name id dir : String) (st : ServerState) : ServerState :=
  compIdName name id (osRemoveAll env dir st)

/-- Compensations once the stdout pipe is open: close it, then compDir. -/
def compStdout (env : Env) (name id dir so : String) (st : ServerState) : ServerState :=
  compDir env name id dir (closePipe so st)

/-- Compensations once both pipes are open: close stderr, then
compStdout. -/
def compPipes (env : Env) (name id dir so se : String) (st : ServerState) : ServerState :=
  compStdout env name id dir so (closePipe se st)

/-- Compensations once the container has been created: request its
deletion (best-effort), then compPipes. -/
def compContainer (env : Env) (name id dir so se : String) (st : ServerState) :
    ServerState :=
  compPipes env name id dir so se (serviceDelete env id st).2

/-- Embedding of RunPodSandbox from src/pkg/server/sandbox_run.go.  The
fresh identity produced by generateID is passed in as id and c.rootDir as
rootDir; external outcomes come from env.  Returns the PodSandboxId of
the response (none on failure), the returned error (none on success) and
the final state.  Each error return runs the defer blocks registered so
far in reverse registration order, exactly as Go does; the initial
metadata literal of the source is built at the persistence step with the
same ID, Name and Config fields. -/
def RunPodSandbox (env : Env) (id rootDir : String) (config : PodSandboxConfig)
    (st : ServerState) : Option String × Option String × ServerState :=
  let name := makeSandboxName (getMetadata config)
  match reserve name id st.nameIndex with
  | .error e =>
    (none, some ("failed to reserve sandbox name \"" ++ name ++ "\": " ++ e), st)
  | .ok tbl =>
  let st1 := { st with nameIndex := tbl }
  match truncAdd id st1.idIndex with
  | .error e =>
    (none, some ("failed to insert sandbox id \"" ++ id ++ "\": " ++ e),
     { st1 with nameIndex := releaseByName name st1.nameIndex })
  | .ok idx =>
  let st2 := { st1 with idIndex := idx }
  let sandboxRootDir := getSandboxRootDir rootDir id
  match osMkdirAll env sandboxRootDir st2 with
  | .error e =>
    (none, some ("failed to create sandbox root directory \"" ++ sandboxRootDir
       ++ "\": " ++ e), compIdName name id st2)
  | .ok st3 =>
  let stdout := (getStreamingPipes sandboxRootDir).2.1
  let stderr := (getStreamingPipes sandboxRootDir).2.2
  match osOpenFifo env.openStdoutErr stdout st3 with
  | .error e =>
    (none, some ("failed to open named pipe \"" ++ stdout ++ "\": " ++ e),
     compDir env name id sandboxRootDir st3)
  | .ok st4 =>
  match osOpenFifo env.openStderrErr stderr st4 with
  | .error e =>
    (none, some ("failed to open named pipe \"" ++ stderr ++ "\": " ++ e),
     compStdout env name id sandboxRootDir stdout st4)
  | .ok st5 =>
  let _spec := generateSandboxContainerSpec id config
  match env.marshalErr with
  | some e =>
    (none, some ("failed to marshal oci spec: " ++ e),
     compPipes env name id sandboxRootDir stdout stderr st5)
  | none =>
  match serviceCreate env id st5 with
  | (.error e, st6) =>
    (none, some ("failed to create sandbox container \"" ++ id ++ "\": " ++ e),
     compPipes env name id sandboxRootDir stdout stderr st6)
  | (.ok pid, st6) =>
  match serviceStart env id st6 with
  | (.error e, st7) =>
    (none, some ("failed to start sandbox container \"" ++ id ++ "\": " ++ e),
     compContainer env name id sandboxRootDir stdout stderr st7)
  | (.ok _, st7) =>
  let meta : SandboxMetadata :=
    { ID := id, Name := name, Config := config, CreatedAt := env.now
      NetNS := getNetworkNamespace pid }
  match storeCreate meta st7.sandboxStore with
  | .error e =>
    (none, some ("failed to add sandbox metadata into store: " ++ e),
     compContainer env name id sandboxRootDir stdout stderr st7)
  | .ok store =>
    (some id, none, { st7 with sandboxStore := store })

/-- Error-propagation policy of section 7 of the spec, stated independently
of the orchestrator: the error surfaced to the caller is the first failing
forward step's error wrapped with its stage description, and it never
depends on the outcomes of the compensating RemoveAll and Delete calls. -/
def firstFailure (env : Env) (id rootDir : String) : Option String :=
  let dir := getSandboxRootDir rootDir id
  if id = "" then some ("failed to insert sandbox id \"" ++ id ++ "\": empty ID")
  else
    match env.mkdirErr with
    | some e => some ("failed to create sandbox root directory \"" ++ dir ++ "\": " ++ e)
    | none =>
      match env.openStdoutErr with
      | some e => some ("failed to open named pipe \"" ++ (getStreamingPipes dir).2.1 ++ "\": " ++ e)
      | none =>
        match env.openStderrErr with
        | some e => some ("failed to open named pipe \"" ++ (getStreamingPipes dir).2.2 ++ "\": " ++ e)
        | none =>
          match env.marshalErr with
          | some e => some ("failed to marshal oci spec: " ++ e)
          | none =>
            match env.createErr with
            | some e => some ("failed to create sandbox container \"" ++ id ++ "\": " ++ e)
            | none =>
              match env.startErr with
              | some e => some ("failed to start sandbox container \"" ++ id ++ "\": " ++ e)
              | none => none

/-- Concrete sandbox config used by witnesses and counterexamples. -/
def cfgA : PodSandboxConfig :=
  { metadata := some { name := "n1", uid := "u1", nsName := "ns", attempt := 1 }
    hostname := "h1", logDirectory := "ld", labels := [], annots := [], linux := none }

/-- Concrete config with a cgroup parent, for the cgroup-path witness. -/
def cfgCg : PodSandboxConfig :=
  { cfgA with linux := some { cgroupParent := "/a/b", securityContext := none } }

/-- Environment in which every external operation succeeds. -/
def envOK : Env :=
  { mkdirErr := none, openStdoutErr := none, openStderrErr := none, marshalErr := none
    createErr := none, startErr := none, removeAllErr := none, deleteErr := none
    pid := 7, now := 1 }

/-- Environment with an injected failure of the remote Start call whose
compensating remote Delete also fails. -/
def envC1 : Env :=
  { envOK with startErr := some "injected start failure"
               deleteErr := some "injected delete failure" }

/-- Environment with an injected failure of the remote Start call and
succeeding compensations. -/
def envStartFail : Env := { envOK with startErr := some "injected" }

/-- Environment in which Start and both compensating actions fail. -/
def envC8 : Env :=
  { envOK with startErr := some "boom", removeAllErr := some "ra-fail"
               deleteErr := some "de-fail" }

/-- State in which the name derived from cfgA is already reserved by
another caller. -/
def stReserved : ServerState :=
  { emptyState with nameIndex := [("n1_ns_u1_1", "other")] }

/-- C4: for every identity and config the generated execution spec obeys
the namespace mapping law: the network, PID and IPC namespaces are each
present in the spec's namespace set exactly when the corresponding
host-sharing flag of the config's namespace options is false (flags of
absent optional blocks read as false), so each flag when true removes
exactly its own namespace. -/
theorem generateSandboxContainerSpec_namespace_law (id : String) (config : PodSandboxConfig) :
    ((LinuxNamespaceType.network ∈ (generateSandboxContainerSpec id config).namespaces) ↔
      getHostNetwork (getNamespaceOptions (getSecurityContext (getLinux config))) = false) ∧
    ((LinuxNamespaceType.pid ∈ (generateSandboxContainerSpec id config).namespaces) ↔
      getHostPid (getNamespaceOptions (getSecurityContext (getLinux config))) = false) ∧
    ((LinuxNamespaceType.ipc ∈ (generateSandboxContainerSpec id config).namespaces) ↔
      getHostIpc (getNamespaceOptions (getSecurityContext (getLinux config))) = false) := by
  by_cases hc : getCgroupParent (getLinux config) = "" <;>
  cases hn : getHostNetwork (getNamespaceOptions (getSecurityContext (getLinux config))) <;>
  cases hp : getHostPid (getNamespaceOptions (getSecurityContext (getLinux config))) <;>
  cases hi : getHostIpc (getNamespaceOptions (getSecurityContext (getLinux config))) <;>
  simp [generateSandboxContainerSpec, hn, hp, hi, hc, removeLinuxNamespace,
    setLinuxCgroupsPath, generateNew]

/-- C5: for every identity and config, a non-empty cgroup parent yields the
deterministic join getCgroupsPath(parent, identity) as the spec's cgroups
path, and an empty cgroup parent (in particular an absent Linux block)
yields no cgroups path. -/
theorem generateSandboxContainerSpec_cgroups_law (id : String) (config : PodSandboxConfig) :
    (getCgroupParent (getLinux config) ≠ "" →
      (generateSandboxContainerSpec id config).cgroupsPath =
        some (getCgroupsPath (getCgroupParent (getLinux config)) id)) ∧
    (getCgroupParent (getLinux config) = "" →
      (generateSandboxContainerSpec id config).cgroupsPath = none) := by
  by_cases hc : getCgroupParent (getLinux config) = "" <;>
  cases hn : getHostNetwork (getNamespaceOptions (getSecurityContext (getLinux config))) <;>
  cases hp : getHostPid (getNamespaceOptions (getSecurityContext (getLinux config))) <;>
  cases hi : getHostIpc (getNamespaceOptions (getSecurityContext (getLinux config))) <;>
  simp [generateSandboxContainerSpec, hn, hp, hi, hc, removeLinuxNamespace,
    setLinuxCgroupsPath, generateNew]

/-- C5 witness: with cgroup parent /a/b and identity X the generated path
is the join of the two. -/
theorem generateSandboxContainerSpec_cgroups_law_witness :
    (generateSandboxContainerSpec "X" cfgCg).cgroupsPath =
      some (getCgroupsPath (getCgroupParent (getLinux cfgCg)) "X") :=
  (generateSandboxContainerSpec_cgroups_law "X" cfgCg).1 (by decide)

/-- C6: for every identity and config the generated spec's root filesystem
path is the fixed relative root, its root is read-only, its process
arguments are the fixed placeholder sandbox-holding command, and its
hostname is copied from the config. -/
theorem generateSandboxContainerSpec_baseline (id : String) (config : PodSandboxConfig) :
    (generateSandboxContainerSpec id config).rootPath = relativeRootfsPath ∧
    (generateSandboxContainerSpec id config).rootReadonly = true ∧
    (generateSandboxContainerSpec id config).processArgs = pauseCommand ∧
    (generateSandboxContainerSpec id config).hostname = getHostname config := by
  by_cases hc : getCgroupParent (getLinux config) = "" <;>
  cases hn : getHostNetwork (getNamespaceOptions (getSecurityContext (getLinux config))) <;>
  cases hp : getHostPid (getNamespaceOptions (getSecurityContext (getLinux config))) <;>
  cases hi : getHostIpc (getNamespaceOptions (getSecurityContext (getLinux config))) <;>
  simp [generateSandboxContainerSpec, hn, hp, hi, hc, removeLinuxNamespace,
    setLinuxCgroupsPath, generateNew]

/-- C7: the execution-spec generator is a pure total function: equal
identity and config give equal specs, and absent optional substructures
(Linux block, security context, namespace options) are treated exactly as
their default values, so partially-nil input never changes the result or
fails. -/
theorem generateSandboxContainerSpec_deterministic_permissive :
    (∀ (id : String) (c₁ c₂ : PodSandboxConfig), c₁ = c₂ →
      generateSandboxContainerSpec id c₁ = generateSandboxContainerSpec id c₂) ∧
    (∀ (id : String) (c : PodSandboxConfig),
      generateSandboxContainerSpec id { c with linux := none } =
      generateSandboxContainerSpec id
        { c with linux := some { cgroupParent := "", securityContext := none } }) ∧
    (∀ (id : String) (c : PodSandboxConfig) (p : String),
      generateSandboxContainerSpec id
        { c with linux := some { cgroupParent := p, securityContext := none } } =
      generateSandboxContainerSpec id
        { c with linux := some { cgroupParent := p, securityContext := some { namespaceOptions := none } } }) ∧
    (∀ (id : String) (c : PodSandboxConfig) (p : String),
      generateSandboxContainerSpec id
        { c with linux := some { cgroupParent := p, securityContext := some { namespaceOptions := none } } } =
      generateSandboxContainerSpec id
        { c with linux := some { cgroupParent := p, securityContext := some { namespaceOptions := some { hostNetwork := false, hostPid := false, hostIpc := false } } } }) := by
  refine ⟨fun id c₁ c₂ h => by rw [h], ?_, ?_, ?_⟩ <;> intro id c <;>
  simp [generateSandboxContainerSpec, getLinux, getHostname, getCgroupParent,
    getSecurityContext, getNamespaceOptions, getHostNetwork, getHostPid, getHostIpc]

/-- C7 witness: determinism applied at a concrete identity and config. -/
theorem generateSandboxContainerSpec_deterministic_permissive_witness :
    generateSandboxContainerSpec "X" cfgA = generateSandboxContainerSpec "X" cfgA :=
  generateSandboxContainerSpec_deterministic_permissive.1 "X" cfgA cfgA rfl

/-- C1 counterexample: with an injected Start failure whose compensating
remote Delete also fails, RunPodSandbox returns an error but the container
created under the identity has not been deleted, refuting the claim that
after every failed call the container has been deleted. -/
theorem runPodSandbox_failed_call_container_left_counterexample :
    ((RunPodSandbox envC1 "id1" "/r" cfgA emptyState).2.1).isSome = true ∧
    (RunPodSandbox envC1 "id1" "/r" cfgA emptyState).2.2.deleteCalls = ["id1"] ∧
    (RunPodSandbox envC1 "id1" "/r" cfgA emptyState).2.2.containers =
      [("id1", ContainerStatus.created)] := by
  exact ⟨rfl, rfl, rfl⟩

set_option maxHeartbeats 800000 in
/-- C1 (amended): every call that fails after the name has been reserved
returns a nil response together with an error, and afterwards — for every
outcome of the compensating actions — the reserved name has been released
and the identity removed from the ID index; the sandbox root directory has
been removed provided its compensating RemoveAll succeeds, and every
container created under the identity has been deleted provided its
compensating remote Delete succeeds. -/
theorem runPodSandbox_failure_cleanup (env : Env) (id rootDir : String)
    (config : PodSandboxConfig)
    (hfail : ((RunPodSandbox env id rootDir config emptyState).2.1).isSome = true) :
    (RunPodSandbox env id rootDir config emptyState).1 = none ∧
    (RunPodSandbox env id rootDir config emptyState).2.2.nameIndex = [] ∧
    (RunPodSandbox env id rootDir config emptyState).2.2.idIndex = [] ∧
    (env.removeAllErr = none →
      (RunPodSandbox env id rootDir config emptyState).2.2.dirs = []) ∧
    (env.deleteErr = none →
      (RunPodSandbox env id rootDir config emptyState).2.2.containers = []) := by
  obtain ⟨mk, so, se, ma, cr, sr, ra, de, pid, now⟩ := env
  by_cases hid : id = ""
  · simp_all [RunPodSandbox, reserve, truncAdd, releaseByName, truncDelete, emptyState]
  · cases mk with
    | some e => simp_all [RunPodSandbox, reserve, truncAdd, releaseByName, truncDelete,
        osMkdirAll, compIdName, emptyState]
    | none =>
      cases so with
      | some e => cases ra <;> simp_all [RunPodSandbox, reserve, truncAdd, releaseByName,
          truncDelete, osMkdirAll, osOpenFifo, osRemoveAll, compIdName, compDir, emptyState]
      | none =>
        cases se with
        | some e => cases ra <;> simp_all [RunPodSandbox, reserve, truncAdd, releaseByName,
            truncDelete, osMkdirAll, osOpenFifo, osRemoveAll, closePipe, compIdName,
            compDir, compStdout, emptyState]
        | none =>
          cases ma with
          | some e => cases ra <;> simp_all [RunPodSandbox, reserve, truncAdd, releaseByName,
              truncDelete, osMkdirAll, osOpenFifo, osRemoveAll, closePipe, compIdName,
              compDir, compStdout, compPipes, emptyState]
          | none =>
            cases cr with
            | some e => cases ra <;> simp_all [RunPodSandbox, reserve, truncAdd,
                releaseByName, truncDelete, osMkdirAll, osOpenFifo, osRemoveAll, closePipe,
                serviceCreate, compIdName, compDir, compStdout, compPipes, emptyState]
            | none =>
              cases sr with
              | some e => cases ra <;> cases de <;> simp_all [RunPodSandbox, reserve,
                  truncAdd, releaseByName, truncDelete, osMkdirAll, osOpenFifo,
                  osRemoveAll, closePipe, serviceCreate, serviceStart, serviceDelete,
                  storeCreate, compIdName, compDir, compStdout, compPipes, compContainer,
                  emptyState]
              | none => simp_all [RunPodSandbox, reserve, truncAdd, releaseByName,
                  truncDelete, osMkdirAll, osOpenFifo, closePipe, serviceCreate,
                  serviceStart, storeCreate, emptyState]

/-- C1 witness: the amended cleanup guarantee at an injected Start failure
with succeeding compensations. -/
theorem runPodSandbox_failure_cleanup_witness :
    (RunPodSandbox envStartFail "id1" "/r" cfgA emptyState).1 = none ∧
    (RunPodSandbox envStartFail "id1" "/r" cfgA emptyState).2.2.nameIndex = [] ∧
    (RunPodSandbox envStartFail "id1" "/r" cfgA emptyState).2.2.idIndex = [] ∧
    (RunPodSandbox envStartFail "id1" "/r" cfgA emptyState).2.2.dirs = [] ∧
    (RunPodSandbox envStartFail "id1" "/r" cfgA emptyState).2.2.containers = [] := by
  obtain ⟨h1, h2, h3, h4, h5⟩ :=
    runPodSandbox_failure_cleanup envStartFail "id1" "/r" cfgA rfl
  exact ⟨h1, h2, h3, h4 rfl, h5 rfl⟩

/-- C2: when the derived name is already reserved in the registrar,
RunPodSandbox returns a nil response and an error and leaves the entire
state — the other caller's reservation, the ID index, the filesystem and
the execution service — completely unchanged. -/
theorem runPodSandbox_name_conflict (env : Env) (id rootDir : String)
    (config : PodSandboxConfig) (st : ServerState)
    (hres : st.nameIndex.any (fun p => p.1 = makeSandboxName (getMetadata config)) = true) :
    (RunPodSandbox env id rootDir config st).1 = none ∧
    ((RunPodSandbox env id rootDir config st).2.1).isSome = true ∧
    (RunPodSandbox env id rootDir config st).2.2 = st := by
  unfold RunPodSandbox reserve
  simp [hres]

/-- C2 witness: a second caller with cfgA fails fast against the state in
which the derived name n1_ns_u1_1 is reserved to another identity, and the
state is untouched. -/
theorem runPodSandbox_name_conflict_witness :
    (RunPodSandbox envOK "id2" "/r" cfgA stReserved).1 = none ∧
    ((RunPodSandbox envOK "id2" "/r" cfgA stReserved).2.1).isSome = true ∧
    (RunPodSandbox envOK "id2" "/r" cfgA stReserved).2.2 = stReserved :=
  runPodSandbox_name_conflict envOK "id2" "/r" cfgA stReserved (by decide)

set_option maxHeartbeats 800000 in
/-- C3: after any RunPodSandbox call from the empty state, a metadata
record for the identity exists in the sandbox store if and only if the
execution-service container for that identity was created and started (it
is present in started status), and a record can only exist when both the
remote create and the remote start operations succeeded — no execution
path creates a record before the remote start has succeeded. -/
theorem sandbox_record_iff_started (env : Env) (id rootDir : String)
    (config : PodSandboxConfig) :
    (((RunPodSandbox env id rootDir config emptyState).2.2.sandboxStore.any
        (fun m => m.ID = id) = true) ↔
      ((id, ContainerStatus.started) ∈
        (RunPodSandbox env id rootDir config emptyState).2.2.containers)) ∧
    (((RunPodSandbox env id rootDir config emptyState).2.2.sandboxStore.any
        (fun m => m.ID = id) = true) →
      env.createErr = none ∧ env.startErr = none) := by
  obtain ⟨mk, so, se, ma, cr, sr, ra, de, pid, now⟩ := env
  by_cases hid : id = ""
  · simp_all [RunPodSandbox, reserve, truncAdd, releaseByName, truncDelete, emptyState]
  · cases mk with
    | some e => simp_all [RunPodSandbox, reserve, truncAdd, releaseByName, truncDelete,
        osMkdirAll, compIdName, emptyState]
    | none =>
      cases so with
      | some e => cases ra <;> simp_all [RunPodSandbox, reserve, truncAdd, releaseByName,
          truncDelete, osMkdirAll, osOpenFifo, osRemoveAll, compIdName, compDir, emptyState]
      | none =>
        cases se with
        | some e => cases ra <;> simp_all [RunPodSandbox, reserve, truncAdd, releaseByName,
            truncDelete, osMkdirAll, osOpenFifo, osRemoveAll, closePipe, compIdName,
            compDir, compStdout, emptyState]
        | none =>
          cases ma with
          | some e => cases ra <;> simp_all [RunPodSandbox, reserve, truncAdd, releaseByName,
              truncDelete, osMkdirAll, osOpenFifo, osRemoveAll, closePipe, compIdName,
              compDir, compStdout, compPipes, emptyState]
          | none =>
            cases cr with
            | some e => cases ra <;> simp_all [RunPodSandbox, reserve, truncAdd,
                releaseByName, truncDelete, osMkdirAll, osOpenFifo, osRemoveAll, closePipe,
                serviceCreate, compIdName, compDir, compStdout, compPipes, emptyState]
            | none =>
              cases sr with
              | some e => cases ra <;> cases de <;> simp_all [RunPodSandbox, reserve,
                  truncAdd, releaseByName, truncDelete, osMkdirAll, osOpenFifo,
                  osRemoveAll, closePipe, serviceCreate, serviceStart, serviceDelete,
                  storeCreate, compIdName, compDir, compStdout, compPipes, compContainer,
                  emptyState]
              | none => simp_all [RunPodSandbox, reserve, truncAdd, releaseByName,
                  truncDelete, osMkdirAll, osOpenFifo, closePipe, serviceCreate,
                  serviceStart, storeCreate, emptyState]

/-- C3 witness: the record-iff-started equivalence instantiated at a fully
successful call. -/
theorem sandbox_record_iff_started_witness :
    (((RunPodSandbox envOK "id1" "/r" cfgA emptyState).2.2.sandboxStore.any
        (fun m => m.ID = "id1") = true) ↔
      (("id1", ContainerStatus.started) ∈
        (RunPodSandbox envOK "id1" "/r" cfgA emptyState).2.2.containers)) ∧
    (((RunPodSandbox envOK "id1" "/r" cfgA emptyState).2.2.sandboxStore.any
        (fun m => m.ID = "id1") = true) →
      envOK.createErr = none ∧ envOK.startErr = none) :=
  sandbox_record_iff_started envOK "id1" "/r" cfgA

set_option maxHeartbeats 800000 in
/-- C8: the error a failing RunPodSandbox call returns is exactly the error
of the first failing forward step wrapped with its stage description
(firstFailure, which is independent of the outcomes of the compensating
RemoveAll and Delete operations); whenever an error is returned the final
compensations — releasing the name and deleting the id — have completed,
and at a Start failure whose compensating RemoveAll and Delete both fail,
the remote delete was still requested, the directory removal was still
attempted and both pipes were still closed, so compensation failures are
never escalated and never abort the remaining compensations. -/
theorem runPodSandbox_first_failure_propagation (env : Env) (id rootDir : String)
    (config : PodSandboxConfig) :
    ((RunPodSandbox env id rootDir config emptyState).2.1 = firstFailure env id rootDir) ∧
    (((RunPodSandbox env id rootDir config emptyState).2.1).isSome = true →
      (RunPodSandbox env id rootDir config emptyState).2.2.nameIndex = [] ∧
      (RunPodSandbox env id rootDir config emptyState).2.2.idIndex = []) ∧
    (env.startErr.isSome = true → env.mkdirErr = none → env.openStdoutErr = none →
      env.openStderrErr = none → env.marshalErr = none → env.createErr = none → id ≠ "" →
      (RunPodSandbox env id rootDir config emptyState).2.2.deleteCalls = [id] ∧
      (RunPodSandbox env id rootDir config emptyState).2.2.removeAllCalls =
        [getSandboxRootDir rootDir id] ∧
      (RunPodSandbox env id rootDir config emptyState).2.2.closedPipes =
        [(getStreamingPipes (getSandboxRootDir rootDir id)).2.1,
         (getStreamingPipes (getSandboxRootDir rootDir id)).2.2]) := by
  obtain ⟨mk, so, se, ma, cr, sr, ra, de, pid, now⟩ := env
  by_cases hid : id = ""
  · simp_all [RunPodSandbox, firstFailure, reserve, truncAdd, releaseByName, truncDelete,
      emptyState]
  · cases mk with
    | some e => simp_all [RunPodSandbox, firstFailure, reserve, truncAdd, releaseByName,
        truncDelete, osMkdirAll, compIdName, emptyState]
    | none =>
      cases so with
      | some e => cases ra <;> simp_all [RunPodSandbox, firstFailure, reserve, truncAdd,
          releaseByName, truncDelete, osMkdirAll, osOpenFifo, osRemoveAll, compIdName,
          compDir, emptyState]
      | none =>
        cases se with
        | some e => cases ra <;> simp_all [RunPodSandbox, firstFailure, reserve, truncAdd,
            releaseByName, truncDelete, osMkdirAll, osOpenFifo, osRemoveAll, closePipe,
            compIdName, compDir, compStdout, emptyState]
        | none =>
          cases ma with
          | some e => cases ra <;> simp_all [RunPodSandbox, firstFailure, reserve,
              truncAdd, releaseByName, truncDelete, osMkdirAll, osOpenFifo, osRemoveAll,
              closePipe, compIdName, compDir, compStdout, compPipes, emptyState]
          | none =>
            cases cr with
            | some e => cases ra <;> simp_all [RunPodSandbox, firstFailure, reserve,
                truncAdd, releaseByName, truncDelete, osMkdirAll, osOpenFifo, osRemoveAll,
                closePipe, serviceCreate, compIdName, compDir, compStdout, compPipes,
                emptyState]
            | none =>
              cases sr with
              | some e => cases ra <;> cases de <;> simp_all [RunPodSandbox, firstFailure,
                  reserve, truncAdd, releaseByName, truncDelete, osMkdirAll, osOpenFifo,
                  osRemoveAll, closePipe, serviceCreate, serviceStart, serviceDelete,
                  storeCreate, compIdName, compDir, compStdout, compPipes, compContainer,
                  emptyState, getStreamingPipes]
              | none => simp_all [RunPodSandbox, firstFailure, reserve, truncAdd,
                  releaseByName, truncDelete, osMkdirAll, osOpenFifo, closePipe,
                  serviceCreate, serviceStart, storeCreate, emptyState]

/-- C8 witness: at a Start failure whose compensating RemoveAll and Delete
both fail, the delete was still requested, the removal still attempted and
both pipes still closed. -/
theorem runPodSandbox_first_failure_propagation_witness :
    (RunPodSandbox envC8 "id1" "/r" cfgA emptyState).2.2.deleteCalls = ["id1"] ∧
    (RunPodSandbox envC8 "id1" "/r" cfgA emptyState).2.2.removeAllCalls =
      [getSandboxRootDir "/r" "id1"] ∧
    (RunPodSandbox envC8 "id1" "/r" cfgA emptyState).2.2.closedPipes =
      [(getStreamingPipes (getSandboxRootDir "/r" "id1")).2.1,
       (getStreamingPipes (getSandboxRootDir "/r" "id1")).2.2] :=
  (runPodSandbox_first_failure_propagation envC8 "id1" "/r" cfgA).2.2
    rfl rfl rfl rfl rfl rfl (by decide)

set_option maxHeartbeats 800000 in
/-- C9: every successful RunPodSandbox call uses one single identity string
as the key everywhere downstream: the returned PodSandboxId, the identity
the name is reserved to, the ID-index entry, the sandbox root directory
name, the execution-service create and start request IDs and the metadata
record's ID field are all equal to the generated identity. -/
theorem runPodSandbox_success_single_identity (env : Env) (id rootDir rid : String)
    (config : PodSandboxConfig)
    (hsucc : (RunPodSandbox env id rootDir config emptyState).1 = some rid) :
    rid = id ∧
    (RunPodSandbox env id rootDir config emptyState).2.2.nameIndex =
      [(makeSandboxName (getMetadata config), id)] ∧
    (RunPodSandbox env id rootDir config emptyState).2.2.idIndex = [id] ∧
    (RunPodSandbox env id rootDir config emptyState).2.2.dirs =
      [getSandboxRootDir rootDir id] ∧
    (RunPodSandbox env id rootDir config emptyState).2.2.createCalls = [id] ∧
    (RunPodSandbox env id rootDir config emptyState).2.2.startCalls = [id] ∧
    (RunPodSandbox env id rootDir config emptyState).2.2.sandboxStore =
      [{ ID := id, Name := makeSandboxName (getMetadata config), Config := config, CreatedAt := env.now, NetNS := getNetworkNamespace env.pid }] := by
  obtain ⟨mk, so, se, ma, cr, sr, ra, de, pid, now⟩ := env
  by_cases hid : id = ""
  · simp_all [RunPodSandbox, reserve, truncAdd, releaseByName, truncDelete, emptyState]
  · cases mk <;> cases so <;> cases se <;> cases ma <;> cases cr <;> cases sr <;>
      simp_all [RunPodSandbox, reserve, truncAdd, releaseByName, truncDelete,
        osMkdirAll, osOpenFifo, osRemoveAll, closePipe, serviceCreate, serviceStart,
        serviceDelete, storeCreate, compIdName, compDir, compStdout, compPipes,
        compContainer, emptyState]

/-- C9 witness: a concrete successful call keyed throughout by id1. -/
theorem runPodSandbox_success_single_identity_witness :
    "id1" = "id1" ∧
    (RunPodSandbox envOK "id1" "/r" cfgA emptyState).2.2.nameIndex =
      [(makeSandboxName (getMetadata cfgA), "id1")] ∧
    (RunPodSandbox envOK "id1" "/r" cfgA emptyState).2.2.idIndex = ["id1"] ∧
    (RunPodSandbox envOK "id1" "/r" cfgA emptyState).2.2.dirs =
      [getSandboxRootDir "/r" "id1"] ∧
    (RunPodSandbox envOK "id1" "/r" cfgA emptyState).2.2.createCalls = ["id1"] ∧
    (RunPodSandbox envOK "id1" "/r" cfgA emptyState).2.2.startCalls = ["id1"] ∧
    (RunPodSandbox envOK "id1" "/r" cfgA emptyState).2.2.sandboxStore =
      [{ ID := "id1", Name := makeSandboxName (getMetadata cfgA), Config := cfgA, CreatedAt := envOK.now, NetNS := getNetworkNamespace envOK.pid }] :=
  runPodSandbox_success_single_identity envOK "id1" "/r" "id1" cfgA rfl

set_option maxHeartbeats 800000 in
/-- C10: on every successful RunPodSandbox call no compensating action
executes: no RemoveAll and no remote Delete was requested, no pipe handle
was closed, the derived name remains reserved to the identity, the
identity remains in the ID index, the sandbox root directory remains, both
pipes remain open, and the container remains in started status. -/
theorem runPodSandbox_success_no_compensation (env : Env) (id rootDir : String)
    (config : PodSandboxConfig)
    (hsucc : ((RunPodSandbox env id rootDir config emptyState).1).isSome = true) :
    (RunPodSandbox env id rootDir config emptyState).2.2.removeAllCalls = [] ∧
    (RunPodSandbox env id rootDir config emptyState).2.2.deleteCalls = [] ∧
    (RunPodSandbox env id rootDir config emptyState).2.2.closedPipes = [] ∧
    (makeSandboxName (getMetadata config), id) ∈
      (RunPodSandbox env id rootDir config emptyState).2.2.nameIndex ∧
    id ∈ (RunPodSandbox env id rootDir config emptyState).2.2.idIndex ∧
    getSandboxRootDir rootDir id ∈
      (RunPodSandbox env id rootDir config emptyState).2.2.dirs ∧
    (RunPodSandbox env id rootDir config emptyState).2.2.openPipes =
      [(getStreamingPipes (getSandboxRootDir rootDir id)).2.2,
       (getStreamingPipes (getSandboxRootDir rootDir id)).2.1] ∧
    ((id, ContainerStatus.started) ∈
      (RunPodSandbox env id rootDir config emptyState).2.2.containers) := by
  obtain ⟨mk, so, se, ma, cr, sr, ra, de, pid, now⟩ := env
  by_cases hid : id = ""
  · simp_all [RunPodSandbox, reserve, truncAdd, releaseByName, truncDelete, emptyState]
  · cases mk <;> cases so <;> cases se <;> cases ma <;> cases cr <;> cases sr <;>
      simp_all [RunPodSandbox, reserve, truncAdd, releaseByName, truncDelete,
        osMkdirAll, osOpenFifo, osRemoveAll, closePipe, serviceCreate, serviceStart,
        serviceDelete, storeCreate, compIdName, compDir, compStdout, compPipes,
        compContainer, emptyState, getStreamingPipes, getSandboxRootDir]

/-- C10 witness: the frame guarantee at a concrete successful call. -/
theorem runPodSandbox_success_no_compensation_witness :
    (RunPodSandbox envOK "id1" "/r" cfgA emptyState).2.2.removeAllCalls = [] ∧
    (RunPodSandbox envOK "id1" "/r" cfgA emptyState).2.2.deleteCalls = [] ∧
    (RunPodSandbox envOK "id1" "/r" cfgA emptyState).2.2.closedPipes = [] ∧
    (makeSandboxName (getMetadata cfgA), "id1") ∈
      (RunPodSandbox envOK "id1" "/r" cfgA emptyState).2.2.nameIndex ∧
    "id1" ∈ (RunPodSandbox envOK "id1" "/r" cfgA emptyState).2.2.idIndex ∧
    getSandboxRootDir "/r" "id1" ∈
      (RunPodSandbox envOK "id1" "/r" cfgA emptyState).2.2.dirs ∧
    (RunPodSandbox envOK "id1" "/r" cfgA emptyState).2.2.openPipes =
      [(getStreamingPipes (getSandboxRootDir "/r" "id1")).2.2,
       (getStreamingPipes (getSandboxRootDir "/r" "id1")).2.1] ∧
    (("id1", ContainerStatus.started) ∈
      (RunPodSandbox envOK "id1" "/r" cfgA emptyState).2.2.containers) :=
  runPodSandbox_success_no_compensation envOK "id1" "/r" cfgA rfl

end CriContainerd
